import Mathlib

/-!
Shallow embedding of the return-eligibility core of `src/tools.py`
(class `Tools`: `__init__` normalization, `evaluate_return_eligibility`,
`search_customer_orders`, `initiate_return_request`).

Strings are modelled with Lean `String`; the Python methods
`str.upper` / `str.lower` / `str.strip` are modelled on the ASCII
fragment (identifiers, categories and statuses in this repository are
ASCII).  Calendar dates are modelled as integer day ordinals, so that
`(date.today() - order_date).days` becomes integer subtraction, exactly
the whole-day arithmetic of `datetime.date`.  Prices and quantities are
integers.  The notification collaborator (`smtplib` send in
`initiate_return_request`) is modelled by an explicit `SendResult`
parameter: `success` for a completed `send_message`, `authFailure` for a
raised `SMTPAuthenticationError`, `otherFailure msg` for any other
exception — exactly the three paths of the `try/except` block.
-/

/-- ASCII model of Python `str.upper` on one character:
lowercase letters `a`–`z` (97–122) map to `A`–`Z`, all else unchanged. -/
def upChar (c : Char) : Char :=
  if 97 ≤ c.toNat ∧ c.toNat ≤ 122 then Char.ofNat (c.toNat - 32) else c

/-- ASCII model of Python `str.lower` on one character:
uppercase letters `A`–`Z` (65–90) map to `a`–`z`, all else unchanged. -/
def lowChar (c : Char) : Char :=
  if 65 ≤ c.toNat ∧ c.toNat ≤ 90 then Char.ofNat (c.toNat + 32) else c

/-- Python `str.upper` (ASCII fragment). -/
def pyUpper (s : String) : String := ⟨s.data.map upChar⟩

/-- Python `str.lower` (ASCII fragment). -/
def pyLower (s : String) : String := ⟨s.data.map lowChar⟩

/-- Python `str.strip`: drop leading and trailing whitespace. -/
def pyStrip (s : String) : String :=
  ⟨((s.data.dropWhile Char.isWhitespace).reverse.dropWhile
      Char.isWhitespace).reverse⟩

/-- One row of the orders DataFrame `pedidos_df`
(columns of `tools.py` line 16). -/
structure OrderRecord where
  order_id : String
  customer_id : String
  product : String
  category : String
  price : Int
  quantity : Int
  order_date : Int
  payment_method : String
  estado : String
deriving Repr, DecidableEq

/-- Load-time normalization of one row, `Tools.__init__` lines 21–23:
`product`, `category`, `estado` are lowercased then stripped
(`.str.lower().str.strip()`); `order_id`, `customer_id`, the numeric
columns and `payment_method` are left untouched. -/
def normalizeRecord (r : OrderRecord) : OrderRecord :=
  { r with
    product := pyStrip (pyLower r.product)
    category := pyStrip (pyLower r.category)
    estado := pyStrip (pyLower r.estado) }

/-- `Tools.__init__`: copy the DataFrame and normalize each row. -/
def toolsInit (pedidos_df : List OrderRecord) : List OrderRecord :=
  pedidos_df.map normalizeRecord

/-- The non-returnable categories, `tools.py` line 61 (and line 170). -/
def categorias_no_devolucion : List String :=
  ["higiene", "software", "tarjetas de regalo"]

/-- Order Store lookup by order id, `tools.py` lines 38–41:
the input is uppercased and stripped, then compared for exact equality
with the stored `order_id` column; the first matching row is taken
(`pedido.iloc[0]` on the filtered frame). -/
def find_by_order_id (df : List OrderRecord) (order_id : String) :
    Option OrderRecord :=
  (df.filter (fun r => r.order_id == pyStrip (pyUpper order_id))).head?

/-- Order Store lookup by customer id, `tools.py` lines 115–117:
the input is uppercased and stripped, then all rows whose stored
`customer_id` equals it are kept, in storage order. -/
def find_by_customer_id (df : List OrderRecord) (customer_id : String) :
    List OrderRecord :=
  df.filter (fun r => r.customer_id == pyStrip (pyUpper customer_id))

/-- Structured form of the messages returned by
`evaluate_return_eligibility`; each constructor carries exactly the
order data interpolated into the corresponding f-string of
`tools.py` lines 44–103. -/
inductive Verdict where
  | notFound (order_id : String)
  | alreadyReturned (order_id : String)
  | notShipped (order_id : String)
  | inTransit (order_id : String)
  | categoryExcluded (product category : String)
  | windowExpired (days : Int) (order_date : Int)
  | personalizedReview (product : String) (days : Int)
  | cashReview (order_id product : String) (days : Int)
  | eligible (order_id product : String) (days : Int)
      (payment : String) (total : Int)
deriving Repr, DecidableEq

/-- The rule chain of `evaluate_return_eligibility` applied to the
looked-up row `p` (`tools.py` lines 48–103): status checks, category
exclusion, 30-day window, personalized category, cash payment, default
eligible. -/
def evaluateRecord (oid : String) (p : OrderRecord) (today : Int) :
    Verdict :=
  if p.estado = "devuelto" then .alreadyReturned oid
  else if p.estado = "sin enviar" then .notShipped oid
  else if p.estado = "enviado" then .inTransit oid
  else if p.category ∈ categorias_no_devolucion then
    .categoryExcluded p.product p.category
  else if today - p.order_date > 30 then
    .windowExpired (today - p.order_date) p.order_date
  else if p.category = "personalizado" then
    .personalizedReview p.product (today - p.order_date)
  else if pyLower p.payment_method = "efectivo" then
    .cashReview oid p.product (today - p.order_date)
  else
    .eligible oid p.product (today - p.order_date) p.payment_method
      (p.price * p.quantity)

/-- `Tools.evaluate_return_eligibility` (`tools.py` lines 28–103):
normalize the input id, look the order up, and run the rule chain.
`today` is `datetime.date.today()` made explicit. -/
def evaluate_return_eligibility (df : List OrderRecord) (today : Int)
    (order_id : String) : Verdict :=
  let oid := pyStrip (pyUpper order_id)
  match (df.filter (fun r => r.order_id == oid)).head? with
  | none => .notFound oid
  | some p => evaluateRecord oid p today

/-- One bullet of the `search_customer_orders` report
(`tools.py` lines 128–134): the fields interpolated for each row. -/
structure OrderSummary where
  order_id : String
  product : String
  estado : String
  total : Int
  order_date : Int
  days_ago : Int
deriving Repr, DecidableEq

/-- Structured form of the `search_customer_orders` result. -/
inductive SearchResult where
  | notFound (customer_id : String)
  | found (customer_id : String) (summaries : List OrderSummary)
deriving Repr, DecidableEq

/-- The summary built for one row `p` in the loop of
`tools.py` lines 124–134: `days_ago = today - order_date`,
`total = price * quantity`. -/
def mkSummary (today : Int) (p : OrderRecord) : OrderSummary :=
  { order_id := p.order_id
    product := p.product
    estado := p.estado
    total := p.price * p.quantity
    order_date := p.order_date
    days_ago := today - p.order_date }

/-- `Tools.search_customer_orders` (`tools.py` lines 105–136):
normalize the input id, keep the matching rows, report "no orders
found" on an empty match, otherwise one summary per row in storage
order. -/
def search_customer_orders (df : List OrderRecord) (today : Int)
    (customer_id : String) : SearchResult :=
  let cid := pyStrip (pyUpper customer_id)
  let pedidos := df.filter (fun r => r.customer_id == cid)
  if pedidos.isEmpty then .notFound cid
  else .found cid (pedidos.map (mkSummary today))

/-- Result of the notification collaborator (the `smtplib` block of
`tools.py` lines 251–253): a completed send, a raised
`SMTPAuthenticationError`, or any other exception with its text. -/
inductive SendResult where
  | success
  | authFailure
  | otherFailure (msg : String)
deriving Repr, DecidableEq

/-- Structured form of the messages returned by
`initiate_return_request`; each constructor carries exactly the order
data interpolated into the corresponding return string of
`tools.py` lines 160–275. -/
inductive InitOutcome where
  | orderNotFound (order_id : String)
  | invalidStatus (order_id estado : String)
  | categoryExcluded (category : String)
  | windowExpired (days : Int)
  | sent (order_id product : String) (total : Int) (email : String)
  | sentAuthFailed
  | sentOtherFailed (msg : String) (order_id email : String)
deriving Repr, DecidableEq

/-- `Tools.initiate_return_request` (`tools.py` lines 138–275):
normalize the input id, look the order up, require status exactly
`recibido`, reject excluded categories and orders older than 30 days,
then hand the request to the notification collaborator; a collaborator
failure is caught and returned as a message, never re-raised. -/
def initiate_return_request (df : List OrderRecord) (today : Int)
    (order_id customer_email reason : String) (send : SendResult) :
    InitOutcome :=
  let oid := pyStrip (pyUpper order_id)
  match (df.filter (fun r => r.order_id == oid)).head? with
  | none => .orderNotFound oid
  | some p =>
    if p.estado ≠ "recibido" then .invalidStatus oid p.estado
    else if p.category ∈ categorias_no_devolucion then
      .categoryExcluded p.category
    else if today - p.order_date > 30 then
      .windowExpired (today - p.order_date)
    else
      match send with
      | .success => .sent oid p.product (p.price * p.quantity) customer_email
      | .authFailure => .sentAuthFailed
      | .otherFailure e => .sentOtherFailed e oid customer_email

/-- The `total` a verdict message carries, if any: only the eligible
message (`tools.py` line 102) interpolates `price * quantity`. -/
def verdictTotal : Verdict → Option Int
  | .eligible _ _ _ _ t => some t
  | _ => none

/-- State-passing form of `evaluate_return_eligibility`: the method
body (`tools.py` lines 38–103) only reads `self.df`, so the store
component is returned unchanged. -/
def evaluateSt (df : List OrderRecord) (today : Int) (order_id : String) :
    Verdict × List OrderRecord :=
  (evaluate_return_eligibility df today order_id, df)

/-- State-passing form of `search_customer_orders`
(`tools.py` lines 115–136 only read `self.df`). -/
def searchSt (df : List OrderRecord) (today : Int) (customer_id : String) :
    SearchResult × List OrderRecord :=
  (search_customer_orders df today customer_id, df)

/-- State-passing form of `initiate_return_request`
(`tools.py` lines 154–275 only read `self.df`). -/
def initiateSt (df : List OrderRecord) (today : Int)
    (order_id customer_email reason : String) (send : SendResult) :
    InitOutcome × List OrderRecord :=
  (initiate_return_request df today order_id customer_email reason send, df)

example : pyUpper "o0001" = "O0001" := by decide

example : pyStrip " O0001 " = "O0001" := by decide

example : pyStrip (pyLower " Higiene ") = "higiene" := by decide

/-- Concrete rows used to instantiate the theorems below. -/
def wDevuelto : OrderRecord :=
  { order_id := "O0008", customer_id := "C001", product := "jabon artesanal",
    category := "higiene", price := 20000, quantity := 1, order_date := 0,
    payment_method := "efectivo", estado := "devuelto" }

def wSinEnviar : OrderRecord :=
  { wDevuelto with order_id := "O0053", estado := "sin enviar" }

def wEnviado : OrderRecord :=
  { wDevuelto with order_id := "O0002", estado := "enviado" }

/-- C1: for every order record, the status rules are applied with strict
precedence: `devuelto` yields the already-returned verdict, `sin enviar`
the not-shipped verdict and `enviado` the in-transit verdict, whatever
the category, order date, price, quantity or payment method of the
record — the later checks never influence the result. -/
theorem C1_status_rules_precedence (p : OrderRecord) (oid : String)
    (today : Int) :
    (p.estado = "devuelto" →
      evaluateRecord oid p today = Verdict.alreadyReturned oid)
  ∧ (p.estado = "sin enviar" →
      evaluateRecord oid p today = Verdict.notShipped oid)
  ∧ (p.estado = "enviado" →
      evaluateRecord oid p today = Verdict.inTransit oid) := by
  refine ⟨fun h => ?_, fun h => ?_, fun h => ?_⟩ <;> simp [evaluateRecord, h]

/-- Witness for C1: three concrete records, each with an excluded
category, an expired window and a cash payment, still get the status
verdicts. -/
theorem C1_status_rules_precedence_witness :
    evaluateRecord "O0008" wDevuelto 100 = Verdict.alreadyReturned "O0008"
  ∧ evaluateRecord "O0053" wSinEnviar 100 = Verdict.notShipped "O0053"
  ∧ evaluateRecord "O0002" wEnviado 100 = Verdict.inTransit "O0002" :=
  ⟨(C1_status_rules_precedence wDevuelto "O0008" 100).1 rfl,
   (C1_status_rules_precedence wSinEnviar "O0053" 100).2.1 rfl,
   (C1_status_rules_precedence wEnviado "O0002" 100).2.2 rfl⟩

/-- C2: an order whose status is none of the three special values
(including any unrecognized status) and whose category is in
`{higiene, software, tarjetas de regalo}` gets the category-excluded
verdict, independently of order date, price, quantity and payment
method. -/
theorem C2_category_excluded (p : OrderRecord) (oid : String) (today : Int)
    (hst : p.estado ∉ (["devuelto", "sin enviar", "enviado"] : List String))
    (hcat : p.category ∈ categorias_no_devolucion) :
    evaluateRecord oid p today = Verdict.categoryExcluded p.product p.category := by
  simp only [List.mem_cons, List.not_mem_nil, or_false, not_or] at hst
  obtain ⟨h1, h2, h3⟩ := hst
  simp [evaluateRecord, h1, h2, h3, hcat]

/-- A row with the unrecognized status `pendiente` and category
`software`. -/
def wPendienteSoftware : OrderRecord :=
  { wDevuelto with
    order_id := "O0009"
    category := "software"
    product := "antivirus"
    estado := "pendiente" }

/-- Witness for C2: an unrecognized status `pendiente` with category
`software` falls through the status checks into the category
exclusion, 46 days after the order and paid in cash. -/
theorem C2_category_excluded_witness :
    evaluateRecord "O0009" wPendienteSoftware 46
      = Verdict.categoryExcluded "antivirus" "software" :=
  C2_category_excluded wPendienteSoftware "O0009" 46 (by decide) (by decide)

/-- C3: an order not caught by the status rules nor by the category
exclusion gets the window-expired verdict exactly when
`days_since_order = today - order_date` (whole days) is strictly
greater than 30; at exactly 30 days no window-expired verdict is
produced. -/
theorem C3_window_expired (p : OrderRecord) (oid : String) (today : Int)
    (hst : p.estado ∉ (["devuelto", "sin enviar", "enviado"] : List String))
    (hcat : p.category ∉ categorias_no_devolucion) :
    (today - p.order_date > 30 →
      evaluateRecord oid p today
        = Verdict.windowExpired (today - p.order_date) p.order_date)
  ∧ (today - p.order_date ≤ 30 →
      ∀ d od, evaluateRecord oid p today ≠ Verdict.windowExpired d od) := by
  simp only [List.mem_cons, List.not_mem_nil, or_false, not_or] at hst
  obtain ⟨h1, h2, h3⟩ := hst
  constructor
  · intro hgt
    simp [evaluateRecord, h1, h2, h3, hcat, hgt]
  · intro hle d od
    have hno : ¬ (today - p.order_date > 30) := by omega
    simp only [evaluateRecord, h1, h2, h3, hcat, hno, if_false]
    split
    · simp
    · split
      · simp
      · simp

/-- A received order of the unrestricted category `general`, placed at
day 0. -/
def wRecibidoGeneral : OrderRecord :=
  { wDevuelto with
    order_id := "O0010"
    category := "general"
    estado := "recibido" }

/-- Witness for C3: at 45 days the window is expired, at exactly 30
days it is not. -/
theorem C3_window_expired_witness :
    evaluateRecord "O0010" wRecibidoGeneral 45 = Verdict.windowExpired 45 0
  ∧ evaluateRecord "O0010" wRecibidoGeneral 30 ≠ Verdict.windowExpired 30 0 :=
  ⟨(C3_window_expired wRecibidoGeneral "O0010" 45 (by decide) (by decide)).1
      (by decide),
   (C3_window_expired wRecibidoGeneral "O0010" 30 (by decide) (by decide)).2
      (by decide) 30 0⟩

/-- The spec's cash scenario: status `recibido`, category `general`,
payment `efectivo`, price 50000, quantity 2, ordered at day 0 and
evaluated at day 3. -/
def wCashOrder : OrderRecord :=
  { order_id := "O0100", customer_id := "C001", product := "bolsa ecologica",
    category := "general", price := 50000, quantity := 2, order_date := 0,
    payment_method := "efectivo", estado := "recibido" }

/-- The cash scenario with a different price and quantity. -/
def wCashOrderCheap : OrderRecord :=
  { wCashOrder with price := 1, quantity := 1 }

/-- The cash scenario paid by card instead. -/
def wCardOrder : OrderRecord :=
  { wCashOrder with payment_method := "tarjeta" }

/-- Counterexample to C4: on the claim's own scenario the cash-review
message of `tools.py` lines 90–94 interpolates only the order id, the
product and the day count — no total.  The verdict carries no total at
all (so not `total == 100000`), and the result is unchanged when the
price and quantity are changed, so it cannot carry `price * quantity`. -/
theorem C4_total_counterexample :
    evaluate_return_eligibility [wCashOrder] 3 "O0100"
      = Verdict.cashReview "O0100" "bolsa ecologica" 3
  ∧ verdictTotal (evaluate_return_eligibility [wCashOrder] 3 "O0100")
      ≠ some (50000 * 2)
  ∧ evaluate_return_eligibility [wCashOrder] 3 "O0100"
      = evaluate_return_eligibility [wCashOrderCheap] 3 "O0100" :=
  ⟨by decide, by decide, by decide⟩

/-- C4 as amended: an eligible verdict carries
`total = price * quantity` exactly (`tools.py` line 102); the
cash-payment verdict carries no total, and the cash scenario yields the
cash-review verdict with `days_since_order = 3` and no total. -/
theorem C4_total_amended (p : OrderRecord) (oid : String) (today : Int) :
    (∀ o2 prod d pay t,
        evaluateRecord oid p today = Verdict.eligible o2 prod d pay t →
        t = p.price * p.quantity)
  ∧ (∀ o2 prod d,
        evaluateRecord oid p today = Verdict.cashReview o2 prod d →
        verdictTotal (evaluateRecord oid p today) = none)
  ∧ evaluate_return_eligibility [wCashOrder] 3 "O0100"
      = Verdict.cashReview "O0100" "bolsa ecologica" 3 := by
  refine ⟨fun o2 prod d pay t h => ?_, fun o2 prod d h => by rw [h]; rfl,
    by decide⟩
  unfold evaluateRecord at h
  repeat' split at h
  all_goals simp_all

/-- Witness for C4 as amended: by card the same scenario is eligible
with total 100000; in cash the verdict carries no total. -/
theorem C4_total_amended_witness :
    ((100000 : Int) = wCardOrder.price * wCardOrder.quantity)
  ∧ verdictTotal (evaluateRecord "O0100" wCashOrder 3) = none :=
  ⟨(C4_total_amended wCardOrder "O0100" 3).1 "O0100" "bolsa ecologica" 3
      "tarjeta" 100000 (by decide),
   (C4_total_amended wCashOrder "O0100" 3).2.1 "O0100" "bolsa ecologica" 3
      (by decide)⟩

/-- C5: if the looked-up order's status is not exactly `recibido`,
`initiate_return_request` rejects with the invalid-status message, for
every category, order date, price and payment method and for every
possible notifier behaviour — the notification collaborator is never
consulted and the category and window checks are never reached. -/
theorem C5_initiate_invalid_status (df : List OrderRecord) (today : Int)
    (oid email reason : String) (send : SendResult) (p : OrderRecord)
    (hfind : (df.filter
        (fun r => r.order_id == pyStrip (pyUpper oid))).head? = some p)
    (hst : p.estado ≠ "recibido") :
    initiate_return_request df today oid email reason send
      = InitOutcome.invalidStatus (pyStrip (pyUpper oid)) p.estado := by
  simp only [initiate_return_request, hfind]
  simp [hst]

/-- Witness for C5: the spec scenario — `initiate` on an order in
status `enviado` is rejected as invalid status even though the
notifier would have succeeded. -/
theorem C5_initiate_invalid_status_witness :
    initiate_return_request [wEnviado] 100 "o0002" "ana@mail.com"
      "no me gusta" SendResult.success
      = InitOutcome.invalidStatus "O0002" "enviado" :=
  C5_initiate_invalid_status [wEnviado] 100 "o0002" "ana@mail.com"
    "no me gusta" SendResult.success wEnviado (by decide) (by decide)

/-- C6: for an order that passes the lookup, status, category and
window checks, a notifier failure is returned as an ordinary
outcome value (`tools.py` lines 264–275), with the authentication
failure surfaced differently from a generic failure. -/
theorem C6_notification_failure_surfaced (df : List OrderRecord)
    (today : Int) (oid email reason : String) (p : OrderRecord)
    (hfind : (df.filter
        (fun r => r.order_id == pyStrip (pyUpper oid))).head? = some p)
    (hst : p.estado = "recibido")
    (hcat : p.category ∉ categorias_no_devolucion)
    (hwin : today - p.order_date ≤ 30) :
    (initiate_return_request df today oid email reason SendResult.authFailure
       = InitOutcome.sentAuthFailed)
  ∧ (∀ e, initiate_return_request df today oid email reason
        (SendResult.otherFailure e)
       = InitOutcome.sentOtherFailed e (pyStrip (pyUpper oid)) email)
  ∧ (∀ e o2 em,
       InitOutcome.sentAuthFailed ≠ InitOutcome.sentOtherFailed e o2 em) := by
  have hno : ¬ (today - p.order_date > 30) := by omega
  refine ⟨?_, fun e => ?_, fun e o2 em => by simp⟩ <;>
    simp [initiate_return_request, hfind, hst, hcat, hno]

/-- Witness for C6: a received 3-day-old `general` order; both notifier
failure kinds come back as outcome values. -/
theorem C6_notification_failure_surfaced_witness :
    initiate_return_request [wRecibidoGeneral] 3 "o0010" "ana@mail.com"
      "talla equivocada" SendResult.authFailure
      = InitOutcome.sentAuthFailed
  ∧ initiate_return_request [wRecibidoGeneral] 3 "o0010" "ana@mail.com"
      "talla equivocada" (SendResult.otherFailure "timeout")
      = InitOutcome.sentOtherFailed "timeout" "O0010" "ana@mail.com" :=
  ⟨(C6_notification_failure_surfaced [wRecibidoGeneral] 3 "o0010"
      "ana@mail.com" "talla equivocada" wRecibidoGeneral (by decide)
      (by decide) (by decide) (by decide)).1,
   (C6_notification_failure_surfaced [wRecibidoGeneral] 3 "o0010"
      "ana@mail.com" "talla equivocada" wRecibidoGeneral (by decide)
      (by decide) (by decide) (by decide)).2.1 "timeout"⟩

/-- C7: both lookups depend on the input only through uppercasing and
trimming, so two inputs that differ only in letter case or surrounding
whitespace (i.e. normalize to the same key) give the same result; in
particular `o0001` and `O0001` agree.  The customer lookup keeps the
matching rows as a sublist of the store (stable storage order) and is
empty when no stored row matches the normalized input. -/
theorem C7_lookup_case_insensitive (df : List OrderRecord) :
    (∀ s1 s2 : String, pyStrip (pyUpper s1) = pyStrip (pyUpper s2) →
        find_by_order_id df s1 = find_by_order_id df s2)
  ∧ find_by_order_id df "o0001" = find_by_order_id df "O0001"
  ∧ (∀ s1 s2 : String, pyStrip (pyUpper s1) = pyStrip (pyUpper s2) →
        find_by_customer_id df s1 = find_by_customer_id df s2)
  ∧ (∀ cid : String, (find_by_customer_id df cid).Sublist df)
  ∧ (∀ cid : String, (∀ r ∈ df, r.customer_id ≠ pyStrip (pyUpper cid)) →
        find_by_customer_id df cid = []) := by
  have hord : ∀ s1 s2 : String, pyStrip (pyUpper s1) = pyStrip (pyUpper s2) →
      find_by_order_id df s1 = find_by_order_id df s2 := by
    intro s1 s2 h
    unfold find_by_order_id
    rw [h]
  have hcust : ∀ s1 s2 : String, pyStrip (pyUpper s1) = pyStrip (pyUpper s2) →
      find_by_customer_id df s1 = find_by_customer_id df s2 := by
    intro s1 s2 h
    unfold find_by_customer_id
    rw [h]
  refine ⟨hord, hord "o0001" "O0001" (by decide), hcust,
    fun cid => List.filter_sublist df, fun cid h => ?_⟩
  unfold find_by_customer_id
  rw [List.filter_eq_nil_iff]
  intro r hr
  simpa using h r hr

/-- Witness for C7: a lowercase, whitespace-padded order id finds the
same row as the canonical id, and an unknown customer id yields the
empty list. -/
theorem C7_lookup_case_insensitive_witness :
    find_by_order_id [wDevuelto] " o0008 " = find_by_order_id [wDevuelto] "O0008"
  ∧ find_by_customer_id [wDevuelto] "c999" = [] :=
  ⟨(C7_lookup_case_insensitive [wDevuelto]).1 " o0008 " "O0008" (by decide),
   (C7_lookup_case_insensitive [wDevuelto]).2.2.2.2 "c999" (by decide)⟩

/-- A row belonging to a different customer. -/
def wOtherCustomer : OrderRecord :=
  { wDevuelto with order_id := "O0300", customer_id := "C999" }

/-- A three-row store: two rows of customer `C001` around one row of
customer `C999`. -/
def wDfStore : List OrderRecord :=
  [wRecibidoGeneral, wOtherCustomer, wCashOrder]

/-- C8: `search_customer_orders` reports "no orders found" exactly for
a customer with zero matching rows, and for a customer with N matching
rows returns N summaries in storage order, the i-th summary carrying
the i-th matching row's order id, `days_since_order = today -
order_date` and `total = price * quantity`. -/
theorem C8_summarize_orders (df : List OrderRecord) (today : Int)
    (cid : String) :
    (df.filter (fun r => r.customer_id == pyStrip (pyUpper cid)) = [] →
      search_customer_orders df today cid
        = SearchResult.notFound (pyStrip (pyUpper cid)))
  ∧ (∀ c l, search_customer_orders df today cid = SearchResult.found c l →
      l.length = (df.filter
          (fun r => r.customer_id == pyStrip (pyUpper cid))).length
      ∧ ∀ i (hi : i < l.length)
          (hm : i < (df.filter
            (fun r => r.customer_id == pyStrip (pyUpper cid))).length),
          (l.get ⟨i, hi⟩).order_id
              = ((df.filter (fun r =>
                  r.customer_id == pyStrip (pyUpper cid))).get ⟨i, hm⟩).order_id
        ∧ (l.get ⟨i, hi⟩).days_ago
              = today - ((df.filter (fun r =>
                  r.customer_id == pyStrip (pyUpper cid))).get ⟨i, hm⟩).order_date
        ∧ (l.get ⟨i, hi⟩).total
              = ((df.filter (fun r =>
                    r.customer_id == pyStrip (pyUpper cid))).get ⟨i, hm⟩).price
                * ((df.filter (fun r =>
                    r.customer_id == pyStrip (pyUpper cid))).get ⟨i, hm⟩).quantity) := by
  constructor
  · intro h
    simp [search_customer_orders, h]
  · intro c l h
    simp only [search_customer_orders] at h
    split at h
    · exact absurd h (by simp)
    · injection h with hc hl
      subst hl
      refine ⟨by simp, fun i hi hm => ?_⟩
      simp [List.get_eq_getElem, List.getElem_map, mkSummary]

/-- Witness for C8: on the three-row store, customer `c777` has no
orders and customer `c001` has exactly the two summaries of its two
rows. -/
theorem C8_summarize_orders_witness :
    search_customer_orders wDfStore 10 "c777" = SearchResult.notFound "C777"
  ∧ [mkSummary 10 wRecibidoGeneral, mkSummary 10 wCashOrder].length
      = (wDfStore.filter
          (fun r => r.customer_id == pyStrip (pyUpper "c001"))).length :=
  ⟨(C8_summarize_orders wDfStore 10 "c777").1 (by decide),
   ((C8_summarize_orders wDfStore 10 "c001").2 "C001"
      [mkSummary 10 wRecibidoGeneral, mkSummary 10 wCashOrder]
      (by decide)).1⟩

/-- C9: the Order Store is read-only after load: each public operation,
in its state-passing form, returns the stored rows unchanged on every
input and on every success, rejection or notifier-failure path. -/
theorem C9_store_read_only (df : List OrderRecord) (today : Int)
    (oid cid email reason : String) (send : SendResult) :
    (evaluateSt df today oid).2 = df
  ∧ (searchSt df today cid).2 = df
  ∧ (initiateSt df today oid email reason send).2 = df :=
  ⟨rfl, rfl, rfl⟩

/-- `s` contains an ASCII lowercase letter. -/
def hasLowerAscii (s : String) : Bool :=
  s.data.any (fun c => 97 ≤ c.toNat && c.toNat ≤ 122)

/-- `Char.ofNat` round-trips on code points below the surrogate range. -/
theorem toNat_ofNat_valid (n : Nat) (h : n < 55296) :
    (Char.ofNat n).toNat = n := by
  have hv : n.isValidChar := Or.inl h
  simp [Char.ofNat, hv, Char.ofNatAux, Char.toNat, UInt32.toNat,
    BitVec.toNat_ofNatLt]

/-- The result of `upChar` is never an ASCII lowercase letter. -/
theorem upChar_not_lower (c : Char) :
    ¬ (97 ≤ (upChar c).toNat ∧ (upChar c).toNat ≤ 122) := by
  unfold upChar
  split
  · next h =>
    rw [toNat_ofNat_valid (c.toNat - 32) (by omega)]
    omega
  · next h => omega

/-- No character of `pyUpper s` is an ASCII lowercase letter. -/
theorem pyUpper_no_lower (s : String) (c : Char) (hc : c ∈ (pyUpper s).data) :
    ¬ (97 ≤ c.toNat ∧ c.toNat ≤ 122) := by
  simp only [pyUpper, List.mem_map] at hc
  obtain ⟨a, _, rfl⟩ := hc
  exact upChar_not_lower a

/-- Every character of `pyStrip s` is a character of `s`. -/
theorem pyStrip_chars_subset (s : String) (c : Char)
    (hc : c ∈ (pyStrip s).data) : c ∈ s.data := by
  simp only [pyStrip, List.mem_reverse] at hc
  have h1 := (List.dropWhile_sublist (l :=
      (s.data.dropWhile Char.isWhitespace).reverse)
      (p := Char.isWhitespace)).mem hc
  rw [List.mem_reverse] at h1
  exact (List.dropWhile_sublist (l := s.data)
    (p := Char.isWhitespace)).mem h1

/-- A normalized lookup key `pyStrip (pyUpper input)` contains no ASCII
lowercase letter. -/
theorem normKey_no_lower (input : String) :
    hasLowerAscii (pyStrip (pyUpper input)) = false := by
  rw [hasLowerAscii, List.any_eq_false]
  intro c hc
  have hmem : c ∈ (pyUpper input).data := pyStrip_chars_subset _ c hc
  have := pyUpper_no_lower input c hmem
  simp only [Bool.and_eq_true, decide_eq_true_eq, not_and] at *
  omega

/-- Any list element reached by `head?` is a member of the list. -/
theorem mem_of_head_some {α : Type} {l : List α} {a : α}
    (h : l.head? = some a) : a ∈ l := by
  cases l with
  | nil => simp at h
  | cons x t =>
    simp only [List.head?_cons, Option.some.injEq] at h
    exact h ▸ List.mem_cons_self x t

/-- C10: load-time normalization rewrites only `product`, `category`
and `estado`, never `order_id` or `customer_id` (nor the numeric fields
or `payment_method`); consequently a stored row whose `order_id`
(respectively `customer_id`) contains an ASCII lowercase letter can
never be matched by any input: the uppercased-and-trimmed input key
contains no lowercase letter while the stored value does, so the exact
comparison always fails — the row is excluded from the order lookup
used by `evaluate_return_eligibility` and `initiate_return_request`,
and from the customer lookup used by `search_customer_orders`. -/
theorem C10_ids_not_normalized (r : OrderRecord) (df : List OrderRecord) :
    ((normalizeRecord r).order_id = r.order_id
      ∧ (normalizeRecord r).customer_id = r.customer_id
      ∧ (normalizeRecord r).price = r.price
      ∧ (normalizeRecord r).quantity = r.quantity
      ∧ (normalizeRecord r).order_date = r.order_date
      ∧ (normalizeRecord r).payment_method = r.payment_method
      ∧ (normalizeRecord r).product = pyStrip (pyLower r.product)
      ∧ (normalizeRecord r).category = pyStrip (pyLower r.category)
      ∧ (normalizeRecord r).estado = pyStrip (pyLower r.estado))
  ∧ (hasLowerAscii r.order_id = true → ∀ input : String,
        r.order_id ≠ pyStrip (pyUpper input)
      ∧ r ∉ df.filter (fun x => x.order_id == pyStrip (pyUpper input))
      ∧ find_by_order_id df input ≠ some r)
  ∧ (hasLowerAscii r.customer_id = true → ∀ input : String,
        r ∉ find_by_customer_id df input) := by
  have key : ∀ s input : String, hasLowerAscii s = true →
      s ≠ pyStrip (pyUpper input) := by
    intro s input hs heq
    rw [heq, normKey_no_lower input] at hs
    exact Bool.false_ne_true hs
  refine ⟨⟨rfl, rfl, rfl, rfl, rfl, rfl, rfl, rfl, rfl⟩,
    fun hlow input => ?_, fun hlow input hmem => ?_⟩
  · have hne := key r.order_id input hlow
    refine ⟨hne, fun hmem => ?_, fun hfind => ?_⟩
    · have := List.of_mem_filter hmem
      exact hne (by simpa using this)
    · have hmem := mem_of_head_some hfind
      have := List.of_mem_filter hmem
      exact hne (by simpa using this)
  · have hne := key r.customer_id input hlow
    have := List.of_mem_filter hmem
    exact hne (by simpa using this)

/-- A stored row whose identifiers kept their original lowercase form. -/
def wLowerIdOrder : OrderRecord :=
  { wDevuelto with order_id := "o0042", customer_id := "c001" }

/-- Witness for C10: a stored row with lowercase `o0042` / `c001` is
unreachable even when the input repeats the stored spelling exactly. -/
theorem C10_ids_not_normalized_witness :
    wLowerIdOrder.order_id ≠ pyStrip (pyUpper "o0042")
  ∧ wLowerIdOrder ∉ [wLowerIdOrder].filter
      (fun x => x.order_id == pyStrip (pyUpper "o0042"))
  ∧ find_by_order_id [wLowerIdOrder] "o0042" ≠ some wLowerIdOrder
  ∧ wLowerIdOrder ∉ find_by_customer_id [wLowerIdOrder] "c001" :=
  ⟨((C10_ids_not_normalized wLowerIdOrder [wLowerIdOrder]).2.1
      (by decide) "o0042").1,
   ((C10_ids_not_normalized wLowerIdOrder [wLowerIdOrder]).2.1
      (by decide) "o0042").2.1,
   ((C10_ids_not_normalized wLowerIdOrder [wLowerIdOrder]).2.1
      (by decide) "o0042").2.2,
   (C10_ids_not_normalized wLowerIdOrder [wLowerIdOrder]).2.2
      (by decide) "c001"⟩
